import Mathlib

/-!
# Verification of the Lucid procedural audio engine

A shallow embedding of the audio core of the Lucid repository:

* the WAV encoder `bufferToWave` (src/components/IntentView.tsx, lines 646-684),
* the synthesis entry point `generateSynthesizedMusic` (src/unnamed/part_000,
  lines 269-450): its style-keyword dispatch and the shape of the rendered
  buffer,
* the mixing step `handleMixing` (src/components/IntentView.tsx, lines
  176-233): the offline graph it wires up and the sample-level semantics of
  its looping buffer sources.

Samples are modelled as exact rationals; JavaScript number arithmetic on the
small constants involved in the claims (gains, header fields, the 16-bit
scaling) is exact, so no floating-point rounding is lost for the properties
proved here.  Randomised synthesis content (unseeded noise, detune, sparkle
gating) is abstracted by an oracle parameter where only the buffer shape
matters to a claim.
-/

namespace Lucid

/-- A sample buffer as handed around by the code (the Web Audio AudioBuffer):
a sample rate and per-channel sample sequences. -/
structure AudioBuffer where
  sampleRate : ℕ
  channels : List (List ℚ)
deriving DecidableEq

/-- The channel count of a buffer (AudioBuffer.numberOfChannels). -/
def AudioBuffer.numberOfChannels (b : AudioBuffer) : ℕ := b.channels.length

/-- Clamp of one float sample, from the source line
sample = Math.max(-1, Math.min(1, channels[i][offset])). -/
def clamp (s : ℚ) : ℚ := max (-1) (min 1 s)

/-- Truncation toward zero of a rational, the behaviour of the JavaScript
bitwise-or coercion (x|0) on an in-range value.  Int.tdiv is t-division,
which rounds toward zero, so dividing the numerator by the denominator
truncates. -/
def ratTrunc (q : ℚ) : ℤ := Int.tdiv q.num q.den

/-- The per-sample PCM16 mapping of the encoder, from the source line
sample = (0.5 + sample < 0 ? sample * 32768 : sample * 32767)|0.
JavaScript operator precedence parses the condition as (0.5 + sample) < 0,
i.e. sample < -0.5. -/
def pcm16OfSample (s : ℚ) : ℤ :=
  let c := clamp s
  if 1/2 + c < 0 then ratTrunc (c * 32768) else ratTrunc (c * 32767)

/-- The two bytes written by DataView.setUint16(pos, v, true): the value
reduced mod 2^16, little-endian. -/
def u16le (v : ℕ) : List ℕ := [v % 2^8, v / 2^8 % 2^8]

/-- The four bytes written by DataView.setUint32(pos, v, true): the value
reduced mod 2^32, little-endian. -/
def u32le (v : ℕ) : List ℕ :=
  [v % 2^8, v / 2^8 % 2^8, v / 2^16 % 2^8, v / 2^24 % 2^8]

/-- The two bytes written by DataView.setInt16(pos, v, true): the two's
complement of the value, little-endian. -/
def i16le (v : ℤ) : List ℕ := u16le (v % (2^16 : ℤ)).toNat

/-- Concatenation of the lists produced for each element. -/
def concatMap (f : α → List β) : List α → List β
  | [] => []
  | a :: l => f a ++ concatMap f l

/-- One frame of the data section: for each channel the encoded 16-bit sample
at the given frame offset.  A read past the channel data defaults to 0, which
agrees with the JavaScript evaluation of the same read (an undefined sample
clamps to NaN and NaN|0 is 0). -/
def dataFrame (b : AudioBuffer) (offset : ℕ) : List ℕ :=
  concatMap (fun i => i16le (pcm16OfSample ((b.channels.getD i []).getD offset 0)))
    (List.range b.numberOfChannels)

/-- The byte container produced by bufferToWave(abuffer, len)
(src/components/IntentView.tsx, lines 646-684): the 44-byte RIFF/WAVE header
followed by the interleaved PCM16 data, all multi-byte fields little-endian.
The while loop of the source writes exactly len frames (when the channel
count is 0 the header length makes the loop body unreachable, and this
concatenation is likewise empty). -/
def bufferToWave (b : AudioBuffer) (len : ℕ) : List ℕ :=
  let numOfChan := b.numberOfChannels
  let length := len * numOfChan * 2 + 44
  u32le 0x46464952 ++
  (u32le (length - 8) ++
  (u32le 0x45564157 ++
  (u32le 0x20746d66 ++
  (u32le 16 ++
  (u16le 1 ++
  (u16le numOfChan ++
  (u32le b.sampleRate ++
  (u32le (b.sampleRate * 2 * numOfChan) ++
  (u16le (numOfChan * 2) ++
  (u16le 16 ++
  (u32le 0x61746164 ++
  (u32le (length - 40 - 4) ++
  concatMap (dataFrame b) (List.range len)))))))))))))

/-- A concrete two-channel, two-frame buffer at 8000 Hz, used to
instantiate the encoder theorems on explicit input. -/
def sampleBuffer2x2 : AudioBuffer := ⟨8000, [[1/2, -1], [0, 1/4]]⟩

/-- Little-endian 16-bit read at a byte offset of an encoded container. -/
def readU16 (bs : List ℕ) (off : ℕ) : ℕ := bs.getD off 0 + 2^8 * bs.getD (off + 1) 0

/-- Little-endian 32-bit read at a byte offset of an encoded container. -/
def readU32 (bs : List ℕ) (off : ℕ) : ℕ :=
  bs.getD off 0 + 2^8 * bs.getD (off + 1) 0 + 2^16 * bs.getD (off + 2) 0 +
    2^24 * bs.getD (off + 3) 0

/-- Does the first character sequence occur at the start of the second? -/
def startsWithChars : List Char → List Char → Bool
  | [], _ => true
  | _ :: _, [] => false
  | p :: ps, c :: cs => p == c && startsWithChars ps cs

/-- Does the pattern occur contiguously anywhere in the sequence? -/
def containsSeq (pat : List Char) : List Char → Bool
  | [] => pat.isEmpty
  | s@(_ :: rest) => startsWithChars pat s || containsSeq pat rest

/-- JavaScript String.prototype.includes(pat), a case-sensitive contiguous
substring test.  The keywords involved contain no surrogate pairs, so the
code-unit search of JavaScript and this character search agree. -/
def includes (s pat : String) : Bool := containsSeq pat.data s.data

/-- The closed set of synthesis recipes selected by generateSynthesizedMusic
(src/unnamed/part_000): one constructor per branch of its style dispatch. -/
inductive StyleProfile
  | Witch
  | Crystal
  | Ambient
  | Binaural
  | Eightbit
  | DefaultNoise
deriving DecidableEq

/-- Condition of the first branch of generateSynthesizedMusic:
style.includes('女巫') || style.includes('Witch'). -/
def witchMatch (style : String) : Bool := includes style "女巫" || includes style "Witch"

/-- Condition of the second branch:
style.includes('水晶') || style.includes('Crystal'). -/
def crystalMatch (style : String) : Bool := includes style "水晶" || includes style "Crystal"

/-- Condition of the third branch:
style.includes('Ambient') || style.includes('柔和'). -/
def ambientMatch (style : String) : Bool := includes style "Ambient" || includes style "柔和"

/-- Condition of the fourth branch:
style.includes('Binaural') || style.includes('脑波'). -/
def binauralMatch (style : String) : Bool := includes style "Binaural" || includes style "脑波"

/-- Condition of the fifth branch:
style.includes('8bit') || style.includes('Gameboy'). -/
def eightbitMatch (style : String) : Bool := includes style "8bit" || includes style "Gameboy"

/-- The style dispatch of generateSynthesizedMusic (src/unnamed/part_000,
lines 308-450): the if/else-if chain over the keyword tests, in source
order, with the final else falling to the default-noise recipe. -/
def resolveStyle (style : String) : StyleProfile :=
  if witchMatch style then .Witch
  else if crystalMatch style then .Crystal
  else if ambientMatch style then .Ambient
  else if binauralMatch style then .Binaural
  else if eightbitMatch style then .Eightbit
  else .DefaultNoise

/-- WebIDL conversion of a JavaScript number to an unsigned long (the length
argument of the OfflineAudioContext constructor): the integer part
(truncation toward zero), wrapped modulo 2^32. -/
def toUnsignedLong (q : ℚ) : ℕ := (ratTrunc q % (2^32 : ℤ)).toNat

/-- The frame count of the buffer rendered by generateSynthesizedMusic: the
OfflineAudioContext is constructed as
new OfflineAudioContext(2, ctx.sampleRate * durationSeconds, ctx.sampleRate)
with ctx.sampleRate fixed to 44100 (src/unnamed/part_000, lines 270-271). -/
def synthesisFrameCount (durationSeconds : ℚ) : ℕ :=
  toUnsignedLong (44100 * durationSeconds)

/-- The buffer resolved by awaiting offlineCtx.startRendering() in
generateSynthesizedMusic: 2 channels of synthesisFrameCount frames at
44100 Hz.  The sample contents depend on unseeded randomness (noise fill,
detune, sparkle gating) and on oscillator rendering, which the claims under
study do not constrain, so they are abstracted by the musicData oracle;
the shape is exactly that of the constructed OfflineAudioContext. -/
def generateSynthesizedMusic (style : String) (durationSeconds : ℚ)
    (musicData : ℕ → ℕ → ℚ) : AudioBuffer :=
  { sampleRate := 44100
  , channels :=
      (List.range 2).map fun c =>
        (List.range (synthesisFrameCount durationSeconds)).map (musicData c) }

/-- The three mixing regimes of state.mixingMode
(src/unnamed/part_003, line 26). -/
inductive MixMode
  | conscious
  | subliminal
  | silent
deriving DecidableEq

/-- The narration branch of the offline mix graph built by handleMixing when
state.generatedVoiceAudio is present: the looping voice source, the optional
low-pass biquad in front of the voice gain, and the voice gain value. -/
structure NarrationPath where
  buffer : AudioBuffer
  loop : Bool
  lowpassHz : Option ℚ
  gain : ℚ
deriving DecidableEq

/-- The offline mix graph built by handleMixing
(src/components/IntentView.tsx, lines 176-233): the OfflineAudioContext
shape, the looping music source with its gain node, and the optional
narration path.  lengthFrames and numberOfChannels are the shape of the
buffer resolved by offlineCtx.startRendering(). -/
structure MixGraph where
  numberOfChannels : ℕ
  lengthFrames : ℕ
  sampleRate : ℕ
  musicBuffer : AudioBuffer
  musicLoop : Bool
  musicGain : ℚ
  narration : Option NarrationPath
deriving DecidableEq

/-- The graph built by handleMixing.  DURATION is the fixed local constant
60; the context is new OfflineAudioContext(2, 44100 * DURATION, 44100); the
music buffer is generated by generateSynthesizedMusic(state.selectedMusicStyle,
DURATION) and looped; mGain is created with the GainNode default value 1.0
and is assigned a mode-specific value only inside the
if (state.generatedVoiceAudio) branch, where the narration source, its gain
and its mode-specific low-pass filter are also wired (the final else of the
mode dispatch is the silent/masked branch). -/
def handleMixing (mode : MixMode) (selectedMusicStyle : String)
    (musicData : ℕ → ℕ → ℚ) (generatedVoiceAudio : Option AudioBuffer) : MixGraph :=
  let DURATION : ℕ := 60
  { numberOfChannels := 2
  , lengthFrames := 44100 * DURATION
  , sampleRate := 44100
  , musicBuffer := generateSynthesizedMusic selectedMusicStyle (DURATION : ℚ) musicData
  , musicLoop := true
  , musicGain :=
      match generatedVoiceAudio with
      | none => 1
      | some _ =>
        match mode with
        | .conscious => 0.3
        | .subliminal => 0.6
        | .silent => 0.8
  , narration :=
      generatedVoiceAudio.map fun v =>
        match mode with
        | .conscious => { buffer := v, loop := true, lowpassHz := none, gain := 0.5 }
        | .subliminal => { buffer := v, loop := true, lowpassHz := some 8000, gain := 0.015 }
        | .silent => { buffer := v, loop := true, lowpassHz := some 200, gain := 0.01 } }

/-- Output sample i of one channel of an AudioBufferSourceNode started at
time 0.  With loop set (and the default loopStart = 0, loopEnd = 0, Web
Audio loops over the whole buffer) the data wraps around its length;
without loop, reads past the end are silence. -/
def sourceSample (loop : Bool) (data : List ℚ) (i : ℕ) : ℚ :=
  if loop then (if data.length = 0 then 0 else data.getD (i % data.length) 0)
  else data.getD i 0

/-- The music path's contribution to channel c, frame i of the rendered mix:
the looping music source through the music gain node
(mSource.connect(mGain).connect(offlineCtx.destination)).  When the graph
has no narration path this is the entire destination signal. -/
def musicPathOutput (g : MixGraph) (c i : ℕ) : ℚ :=
  g.musicGain * sourceSample g.musicLoop (g.musicBuffer.channels.getD c []) i

/-! ## Helper lemmas -/

theorem ratTrunc_of_nonneg (q : ℚ) (h : 0 ≤ q) : ratTrunc q = ⌊q⌋ := by
  rw [ratTrunc, Rat.floor_def]
  exact Int.tdiv_eq_ediv (by exact_mod_cast Rat.num_nonneg.mpr h) (by positivity)

theorem ratTrunc_neg (q : ℚ) : ratTrunc (-q) = -ratTrunc q := by
  rw [ratTrunc, ratTrunc, Rat.num_neg_eq_neg_num, Rat.den_neg_eq_den, Int.neg_tdiv]

theorem ratTrunc_of_nonpos (q : ℚ) (h : q ≤ 0) : ratTrunc q = -⌊-q⌋ := by
  have hn := ratTrunc_neg (-q)
  rw [neg_neg] at hn
  rw [hn, ratTrunc_of_nonneg (-q) (by linarith)]

theorem ratTrunc_eq_of_nonneg (q : ℚ) (n : ℤ) (h0 : 0 ≤ n) (h1 : (n : ℚ) ≤ q)
    (h2 : q < (n : ℚ) + 1) : ratTrunc q = n := by
  have hq : (0 : ℚ) ≤ q := le_trans (by exact_mod_cast h0) h1
  rw [ratTrunc_of_nonneg q hq]
  rw [Int.floor_eq_iff]
  exact ⟨h1, by linarith⟩

theorem ratTrunc_eq_of_nonpos (q : ℚ) (n : ℤ) (h0 : n ≤ 0) (h1 : q ≤ (n : ℚ))
    (h2 : (n : ℚ) - 1 < q) : ratTrunc q = n := by
  have hq : q ≤ 0 := le_trans h1 (by exact_mod_cast h0)
  rw [ratTrunc_of_nonpos q hq]
  have hf : ⌊-q⌋ = -n := by
    rw [Int.floor_eq_iff]
    constructor
    · push_cast; linarith
    · push_cast; linarith
  rw [hf, neg_neg]

theorem ratTrunc_mem_Icc (q : ℚ) (lo hi : ℤ) (hlo : lo ≤ 0) (hhi : 0 ≤ hi)
    (h1 : (lo : ℚ) ≤ q) (h2 : q ≤ (hi : ℚ)) :
    lo ≤ ratTrunc q ∧ ratTrunc q ≤ hi := by
  rcases le_or_lt 0 q with hq | hq
  · rw [ratTrunc_of_nonneg q hq]
    refine ⟨le_trans hlo (Int.floor_nonneg.mpr hq), ?_⟩
    calc ⌊q⌋ ≤ ⌊(hi : ℚ)⌋ := Int.floor_le_floor h2
    _ = hi := Int.floor_intCast hi
  · rw [ratTrunc_of_nonpos q hq.le]
    constructor
    · have hle : ⌊-q⌋ ≤ -lo := by
        calc ⌊-q⌋ ≤ ⌊((-lo : ℤ) : ℚ)⌋ := Int.floor_le_floor (by push_cast; linarith)
        _ = -lo := Int.floor_intCast _
      omega
    · have hge : 0 ≤ ⌊-q⌋ := Int.floor_nonneg.mpr (by linarith)
      omega

theorem toUnsignedLong_eq (q : ℚ) (n : ℕ) (h1 : (n : ℚ) ≤ q) (h2 : q < (n : ℚ) + 1)
    (h3 : (n : ℤ) < 2 ^ 32) : toUnsignedLong q = n := by
  have ht : ratTrunc q = (n : ℤ) := by
    apply ratTrunc_eq_of_nonneg q n (by positivity) (by exact_mod_cast h1)
    exact_mod_cast h2
  rw [toUnsignedLong, ht, Int.emod_eq_of_lt (by positivity) h3]
  exact Int.toNat_natCast n

theorem getD_range_map {α : Type} (f : ℕ → α) (d : α) (n i : ℕ) (h : i < n) :
    ((List.range n).map f).getD i d = f i := by
  rw [List.getD_eq_getElem?_getD, List.getElem?_map, List.getElem?_range h]
  rfl

theorem concatMap_length {α β : Type} (f : α → List β) (k : ℕ) (l : List α)
    (h : ∀ a, (f a).length = k) : (concatMap f l).length = l.length * k := by
  induction l with
  | nil => simp [concatMap]
  | cons a t ih => simp [concatMap, List.length_append, h a, ih, Nat.succ_mul]; omega

theorem i16le_length (v : ℤ) : (i16le v).length = 2 := rfl

theorem dataFrame_length (b : AudioBuffer) (off : ℕ) :
    (dataFrame b off).length = b.numberOfChannels * 2 := by
  rw [dataFrame, concatMap_length _ 2 _ (fun a => i16le_length _), List.length_range]

theorem bufferToWave_length (b : AudioBuffer) (len : ℕ) :
    (bufferToWave b len).length = 44 + len * b.numberOfChannels * 2 := by
  have hdata : (concatMap (dataFrame b) (List.range len)).length
      = len * (b.numberOfChannels * 2) := by
    rw [concatMap_length _ (b.numberOfChannels * 2) _ (dataFrame_length b), List.length_range]
  have h : (bufferToWave b len).length
      = (concatMap (dataFrame b) (List.range len)).length + 44 := by
    simp only [bufferToWave, List.length_append, u32le, u16le, List.length_cons,
      List.length_nil]
    omega
  rw [h, hdata, ← Nat.mul_assoc]
  exact Nat.add_comm _ _

theorem wav_marker_riff (b : AudioBuffer) (len : ℕ) :
    (bufferToWave b len).take 4 = "RIFF".data.map Char.toNat := rfl

theorem wav_marker_wave (b : AudioBuffer) (len : ℕ) :
    ((bufferToWave b len).drop 8).take 4 = "WAVE".data.map Char.toNat := rfl

theorem wav_marker_fmtSpace (b : AudioBuffer) (len : ℕ) :
    ((bufferToWave b len).drop 12).take 4 = "fmt ".data.map Char.toNat := rfl

theorem wav_marker_data (b : AudioBuffer) (len : ℕ) :
    ((bufferToWave b len).drop 36).take 4 = "data".data.map Char.toNat := rfl

theorem wav_data_section (b : AudioBuffer) (len : ℕ) :
    (bufferToWave b len).drop 44 = concatMap (dataFrame b) (List.range len) := rfl

theorem wav_field_riffLen (b : AudioBuffer) (len : ℕ) :
    readU32 (bufferToWave b len) 4 = (len * b.numberOfChannels * 2 + 44 - 8) % 2 ^ 32 := by
  have h : readU32 (bufferToWave b len) 4
      = (len * b.numberOfChannels * 2 + 44 - 8) % 256
      + 256 * ((len * b.numberOfChannels * 2 + 44 - 8) / 256 % 256)
      + 65536 * ((len * b.numberOfChannels * 2 + 44 - 8) / 65536 % 256)
      + 16777216 * ((len * b.numberOfChannels * 2 + 44 - 8) / 16777216 % 256) := rfl
  generalize hL : len * b.numberOfChannels * 2 = L at h ⊢
  omega

theorem wav_field_fmtLen (b : AudioBuffer) (len : ℕ) :
    readU32 (bufferToWave b len) 16 = 16 := by
  have h : readU32 (bufferToWave b len) 16
      = 16 % 256 + 256 * (16 / 256 % 256) + 65536 * (16 / 65536 % 256)
      + 16777216 * (16 / 16777216 % 256) := rfl
  omega

theorem wav_field_fmtTag (b : AudioBuffer) (len : ℕ) :
    readU16 (bufferToWave b len) 20 = 1 := by
  have h : readU16 (bufferToWave b len) 20 = 1 % 256 + 256 * (1 / 256 % 256) := rfl
  omega

theorem wav_field_chan (b : AudioBuffer) (len : ℕ) :
    readU16 (bufferToWave b len) 22 = b.numberOfChannels % 2 ^ 16 := by
  have h : readU16 (bufferToWave b len) 22
      = b.numberOfChannels % 256 + 256 * (b.numberOfChannels / 256 % 256) := rfl
  omega

theorem wav_field_rate (b : AudioBuffer) (len : ℕ) :
    readU32 (bufferToWave b len) 24 = b.sampleRate % 2 ^ 32 := by
  have h : readU32 (bufferToWave b len) 24
      = b.sampleRate % 256 + 256 * (b.sampleRate / 256 % 256)
      + 65536 * (b.sampleRate / 65536 % 256)
      + 16777216 * (b.sampleRate / 16777216 % 256) := rfl
  omega

theorem wav_field_byteRate (b : AudioBuffer) (len : ℕ) :
    readU32 (bufferToWave b len) 28 = b.sampleRate * 2 * b.numberOfChannels % 2 ^ 32 := by
  have h : readU32 (bufferToWave b len) 28
      = b.sampleRate * 2 * b.numberOfChannels % 256
      + 256 * (b.sampleRate * 2 * b.numberOfChannels / 256 % 256)
      + 65536 * (b.sampleRate * 2 * b.numberOfChannels / 65536 % 256)
      + 16777216 * (b.sampleRate * 2 * b.numberOfChannels / 16777216 % 256) := rfl
  generalize hM : b.sampleRate * 2 * b.numberOfChannels = M at h ⊢
  omega

theorem wav_field_blockAlign (b : AudioBuffer) (len : ℕ) :
    readU16 (bufferToWave b len) 32 = b.numberOfChannels * 2 % 2 ^ 16 := by
  have h : readU16 (bufferToWave b len) 32
      = b.numberOfChannels * 2 % 256 + 256 * (b.numberOfChannels * 2 / 256 % 256) := rfl
  omega

theorem wav_field_bits (b : AudioBuffer) (len : ℕ) :
    readU16 (bufferToWave b len) 34 = 16 := by
  have h : readU16 (bufferToWave b len) 34 = 16 % 256 + 256 * (16 / 256 % 256) := rfl
  omega

theorem synthesisFrameCount_sixty : synthesisFrameCount ((60 : ℕ) : ℚ) = 2646000 := by
  apply toUnsignedLong_eq _ 2646000 (by push_cast; norm_num) (by push_cast; norm_num)
    (by norm_num)

theorem synthShape (style : String) (d : ℚ) (musicData : ℕ → ℕ → ℚ) :
    (generateSynthesizedMusic style d musicData).channels.map List.length
      = [synthesisFrameCount d, synthesisFrameCount d] := by
  rw [generateSynthesizedMusic]
  rw [show List.range 2 = [0, 1] from rfl]
  simp [List.length_map, List.length_range]

theorem mix_music_channel (mode : MixMode) (style : String) (musicData : ℕ → ℕ → ℚ)
    (voice : Option AudioBuffer) (c : ℕ) (h : c < 2) :
    (handleMixing mode style musicData voice).musicBuffer.channels.getD c []
      = (List.range 2646000).map (musicData c) := by
  show (generateSynthesizedMusic style ((60 : ℕ) : ℚ) musicData).channels.getD c [] = _
  rw [generateSynthesizedMusic]
  rw [getD_range_map _ _ 2 c h, synthesisFrameCount_sixty]

theorem sourceSample_range_map (f : ℕ → ℚ) (n i : ℕ) (h : 0 < n) :
    sourceSample true ((List.range n).map f) i = f (i % n) := by
  have hlen : ((List.range n).map f).length = n := by
    rw [List.length_map, List.length_range]
  simp only [sourceSample]
  rw [hlen, if_pos trivial, if_neg h.ne']
  exact getD_range_map f 0 n (i % n) (Nat.mod_lt i h)

theorem wav_field_dataLen (b : AudioBuffer) (len : ℕ) :
    readU32 (bufferToWave b len) 40
      = (len * b.numberOfChannels * 2 + 44 - 40 - 4) % 2 ^ 32 := by
  have h : readU32 (bufferToWave b len) 40
      = (len * b.numberOfChannels * 2 + 44 - 40 - 4) % 256
      + 256 * ((len * b.numberOfChannels * 2 + 44 - 40 - 4) / 256 % 256)
      + 65536 * ((len * b.numberOfChannels * 2 + 44 - 40 - 4) / 65536 % 256)
      + 16777216 * ((len * b.numberOfChannels * 2 + 44 - 40 - 4) / 16777216 % 256) := rfl
  generalize hL : len * b.numberOfChannels * 2 = L at h ⊢
  omega

/-! ## Claim theorems -/

/-- Claim C4, counterexample.  The claim states that the encoder reports a
typed UnsupportedChannelLayout failure for 0 or more than 2 channels rather
than producing output; but bufferToWave performs no channel-count
validation anywhere: on a 3-channel, 1-frame buffer it returns a complete
50-byte container whose channel-count field is 3, and on a 0-channel buffer
it returns a bare 44-byte header — in both cases output is produced and no
failure path exists (the source function unconditionally returns a Blob,
and no error type of the claimed taxonomy occurs in the repository). -/
theorem c4_counterexample :
    (bufferToWave ⟨44100, [[1], [1], [1]]⟩ 1).length = 50
  ∧ readU16 (bufferToWave ⟨44100, [[1], [1], [1]]⟩ 1) 22 = 3
  ∧ (bufferToWave ⟨44100, []⟩ 0).length = 44
  ∧ readU16 (bufferToWave ⟨44100, []⟩ 0) 22 = 0 := by
  refine ⟨?_, ?_, ?_, ?_⟩
  · rw [bufferToWave_length]; rfl
  · rw [wav_field_chan]; rfl
  · rw [bufferToWave_length]; rfl
  · rw [wav_field_chan]; rfl

/-- Claim C4 (amended): the encoder performs no channel-layout validation
and reports no typed failure: for every buffer, including those with 0
channels or more than 2 channels, it synchronously returns a container of
44 + len * channels * 2 bytes whose channel-count header field is the
channel count reduced mod 2^16; a 0-channel buffer thus yields a bare
44-byte header rather than an error. -/
theorem c4_amended (b : AudioBuffer) (len : ℕ) :
    (bufferToWave b len).length = 44 + len * b.numberOfChannels * 2
  ∧ readU16 (bufferToWave b len) 22 = b.numberOfChannels % 2 ^ 16 :=
  ⟨bufferToWave_length b len, wav_field_chan b len⟩

/-- Claim C8, confirmed: for every buffer and frame count whose header
fields stay below their wrap-around bounds, the encoder emits a
little-endian PCM16 container whose header is exactly: bytes 0-3 the
literal "RIFF"; 4-7 total length minus 8; 8-11 "WAVE"; 12-15 "fmt ";
16-19 the value 16; 20-21 format 1 (integer PCM); 22-23 the channel count;
24-27 the sample rate; 28-31 byte rate = sampleRate * 2 * channels; 32-33
block align = channels * 2; 34-35 bits-per-sample 16; 36-39 "data"; 40-43
the data length len * channels * 2; followed from byte 44 by the
interleaved 16-bit samples. -/
theorem c8_header (b : AudioBuffer) (len : ℕ)
    (hchan : b.numberOfChannels * 2 < 2 ^ 16)
    (hrate : b.sampleRate < 2 ^ 32)
    (hbyteRate : b.sampleRate * 2 * b.numberOfChannels < 2 ^ 32)
    (htotal : len * b.numberOfChannels * 2 + 44 < 2 ^ 32) :
    (bufferToWave b len).take 4 = "RIFF".data.map Char.toNat
  ∧ readU32 (bufferToWave b len) 4 = len * b.numberOfChannels * 2 + 44 - 8
  ∧ ((bufferToWave b len).drop 8).take 4 = "WAVE".data.map Char.toNat
  ∧ ((bufferToWave b len).drop 12).take 4 = "fmt ".data.map Char.toNat
  ∧ readU32 (bufferToWave b len) 16 = 16
  ∧ readU16 (bufferToWave b len) 20 = 1
  ∧ readU16 (bufferToWave b len) 22 = b.numberOfChannels
  ∧ readU32 (bufferToWave b len) 24 = b.sampleRate
  ∧ readU32 (bufferToWave b len) 28 = b.sampleRate * 2 * b.numberOfChannels
  ∧ readU16 (bufferToWave b len) 32 = b.numberOfChannels * 2
  ∧ readU16 (bufferToWave b len) 34 = 16
  ∧ ((bufferToWave b len).drop 36).take 4 = "data".data.map Char.toNat
  ∧ readU32 (bufferToWave b len) 40 = len * b.numberOfChannels * 2
  ∧ (bufferToWave b len).drop 44 = concatMap (dataFrame b) (List.range len) := by
  refine ⟨wav_marker_riff b len, ?_, wav_marker_wave b len, wav_marker_fmtSpace b len,
    wav_field_fmtLen b len, wav_field_fmtTag b len, ?_, ?_, ?_, ?_,
    wav_field_bits b len, wav_marker_data b len, ?_, wav_data_section b len⟩
  · rw [wav_field_riffLen]
    generalize hL : len * b.numberOfChannels * 2 = L at htotal ⊢
    omega
  · rw [wav_field_chan]; omega
  · rw [wav_field_rate]; omega
  · rw [wav_field_byteRate]
    generalize hM : b.sampleRate * 2 * b.numberOfChannels = M at hbyteRate ⊢
    omega
  · rw [wav_field_blockAlign]; omega
  · rw [wav_field_dataLen]
    generalize hL : len * b.numberOfChannels * 2 = L at htotal ⊢
    omega

/-- Claim C8, witness: the header layout instantiated on a concrete
two-channel, two-frame buffer at 8000 Hz (total length 52, RIFF length
field 44, byte rate 32000, block align 4, data length 8). -/
theorem c8_witness :
    (bufferToWave sampleBuffer2x2 2).take 4 = "RIFF".data.map Char.toNat
  ∧ readU32 (bufferToWave sampleBuffer2x2 2) 4 = 44
  ∧ ((bufferToWave sampleBuffer2x2 2).drop 8).take 4 = "WAVE".data.map Char.toNat
  ∧ ((bufferToWave sampleBuffer2x2 2).drop 12).take 4 = "fmt ".data.map Char.toNat
  ∧ readU32 (bufferToWave sampleBuffer2x2 2) 16 = 16
  ∧ readU16 (bufferToWave sampleBuffer2x2 2) 20 = 1
  ∧ readU16 (bufferToWave sampleBuffer2x2 2) 22 = 2
  ∧ readU32 (bufferToWave sampleBuffer2x2 2) 24 = 8000
  ∧ readU32 (bufferToWave sampleBuffer2x2 2) 28 = 32000
  ∧ readU16 (bufferToWave sampleBuffer2x2 2) 32 = 4
  ∧ readU16 (bufferToWave sampleBuffer2x2 2) 34 = 16
  ∧ ((bufferToWave sampleBuffer2x2 2).drop 36).take 4 = "data".data.map Char.toNat
  ∧ readU32 (bufferToWave sampleBuffer2x2 2) 40 = 8
  ∧ (bufferToWave sampleBuffer2x2 2).drop 44
      = concatMap (dataFrame sampleBuffer2x2) (List.range 2) :=
  c8_header sampleBuffer2x2 2 (by decide) (by decide) (by decide) (by decide)

/-- Claim C9, confirmed: encoding a buffer with a sample count of zero
yields a minimal valid 44-byte container — the complete header with RIFF,
WAVE, fmt and data markers, RIFF length field 36, a zero-length data chunk
and no sample bytes — and the encoder has no error path. -/
theorem c9_zero_samples (b : AudioBuffer) :
    (bufferToWave b 0).length = 44
  ∧ (bufferToWave b 0).take 4 = "RIFF".data.map Char.toNat
  ∧ readU32 (bufferToWave b 0) 4 = 36
  ∧ ((bufferToWave b 0).drop 8).take 4 = "WAVE".data.map Char.toNat
  ∧ ((bufferToWave b 0).drop 12).take 4 = "fmt ".data.map Char.toNat
  ∧ readU16 (bufferToWave b 0) 20 = 1
  ∧ readU16 (bufferToWave b 0) 22 = b.numberOfChannels % 2 ^ 16
  ∧ ((bufferToWave b 0).drop 36).take 4 = "data".data.map Char.toNat
  ∧ readU32 (bufferToWave b 0) 40 = 0
  ∧ (bufferToWave b 0).drop 44 = [] := by
  refine ⟨?_, wav_marker_riff b 0, ?_, wav_marker_wave b 0, wav_marker_fmtSpace b 0,
    wav_field_fmtTag b 0, wav_field_chan b 0, wav_marker_data b 0, ?_, ?_⟩
  · rw [bufferToWave_length]; omega
  · rw [wav_field_riffLen]; omega
  · rw [wav_field_dataLen]; omega
  · rw [wav_data_section]; rfl

/-- Claim C1, counterexample.  The claim states that every negative clamped
sample is scaled by 32768; but for the sample -1/4 (clamped value -1/4,
negative) the encoder computes -8191 = trunc(-1/4 * 32767), not
-8192 = trunc(-1/4 * 32768): the source condition 0.5 + sample < 0 compares
the clamped sample against -0.5, not against 0. -/
theorem c1_counterexample :
    clamp (-1/4) < 0
  ∧ pcm16OfSample (-1/4) = -8191
  ∧ ratTrunc (clamp (-1/4) * 32768) = -8192
  ∧ pcm16OfSample (-1/4) ≠ ratTrunc (clamp (-1/4) * 32768) := by
  have hc : clamp (-1/4) = -1/4 := by norm_num [clamp]
  have h1 : pcm16OfSample (-1/4) = -8191 := by
    simp only [pcm16OfSample, hc]
    rw [if_neg (by norm_num)]
    exact ratTrunc_eq_of_nonpos _ (-8191) (by norm_num) (by push_cast; norm_num)
      (by push_cast; norm_num)
  have h2 : ratTrunc (clamp (-1/4) * 32768) = -8192 := by
    rw [hc]
    exact ratTrunc_eq_of_nonpos _ (-8192) (by norm_num) (by push_cast; norm_num)
      (by push_cast; norm_num)
  exact ⟨by rw [hc]; norm_num, h1, h2, by rw [h1, h2]; norm_num⟩

/-- Claim C1 (amended): for every float sample, the encoder first clamps it
to [-1, 1] and then maps it to the signed 16-bit range asymmetrically with
threshold -0.5 rather than 0: a clamped sample below -0.5 is scaled by
32768 and a clamped sample at or above -0.5 (including the negative samples
in [-0.5, 0)) is scaled by 32767, then truncated toward zero; the result
always fits the signed 16-bit range, with +1.0 mapping to 32767 and -1.0 to
-32768, so +1.0 never overflows. -/
theorem c1_amended (s : ℚ) :
    (-1 ≤ clamp s ∧ clamp s ≤ 1)
  ∧ (clamp s < -(1/2) → pcm16OfSample s = ratTrunc (clamp s * 32768))
  ∧ (-(1/2) ≤ clamp s → pcm16OfSample s = ratTrunc (clamp s * 32767))
  ∧ (-32768 ≤ pcm16OfSample s ∧ pcm16OfSample s ≤ 32767)
  ∧ pcm16OfSample 1 = 32767
  ∧ pcm16OfSample (-1) = -32768 := by
  have hb : -1 ≤ clamp s ∧ clamp s ≤ 1 := by
    refine ⟨le_max_left _ _, max_le (by norm_num) (min_le_left _ _)⟩
  have hneg : clamp s < -(1/2) → pcm16OfSample s = ratTrunc (clamp s * 32768) := by
    intro h
    simp only [pcm16OfSample]
    rw [if_pos (by linarith)]
  have hpos : -(1/2) ≤ clamp s → pcm16OfSample s = ratTrunc (clamp s * 32767) := by
    intro h
    simp only [pcm16OfSample]
    rw [if_neg (by linarith)]
  refine ⟨hb, hneg, hpos, ?_, ?_, ?_⟩
  · rcases lt_or_le (clamp s) (-(1/2)) with h | h
    · rw [hneg h]
      have hm := ratTrunc_mem_Icc (clamp s * 32768) (-32768) 0 (by norm_num) le_rfl
        (by push_cast; nlinarith [hb.1]) (by push_cast; nlinarith)
      omega
    · rw [hpos h]
      have hm := ratTrunc_mem_Icc (clamp s * 32767) (-16384) 32767 (by norm_num)
        (by norm_num) (by push_cast; nlinarith) (by push_cast; nlinarith [hb.2])
      omega
  · have hc : clamp (1 : ℚ) = 1 := by norm_num [clamp]
    simp only [pcm16OfSample, hc]
    rw [if_neg (by norm_num)]
    exact ratTrunc_eq_of_nonneg _ 32767 (by norm_num) (by push_cast; norm_num)
      (by push_cast; norm_num)
  · have hc : clamp (-1 : ℚ) = -1 := by norm_num [clamp]
    simp only [pcm16OfSample, hc]
    rw [if_pos (by norm_num)]
    exact ratTrunc_eq_of_nonpos _ (-32768) (by norm_num) (by push_cast; norm_num)
      (by push_cast; norm_num)

/-- Claim C1, witness: the amended mapping evaluated on concrete samples in
both branches, -3/4 (below the -0.5 threshold) and 1/4 (above it). -/
theorem c1_witness :
    pcm16OfSample (-3/4) = ratTrunc (clamp (-3/4) * 32768)
  ∧ pcm16OfSample (1/4) = ratTrunc (clamp (1/4) * 32767) :=
  ⟨(c1_amended (-3/4)).2.1 (by norm_num [clamp]),
   (c1_amended (1/4)).2.2.1 (by norm_num [clamp])⟩

/-- Claim C2, counterexample.  The claim states that with no narration
buffer the output is the music scaled by the mode's music gain (0.3 in
conscious mode); but mGain.gain.value is only assigned inside the
if (state.generatedVoiceAudio) branch, so without narration it keeps the
GainNode default 1.0: with an all-ones music oracle the rendered sample at
channel 0, frame 0 is 1, while the claim predicts 0.3 times the music
sample, i.e. 0.3. -/
theorem c2_counterexample :
    (handleMixing .conscious "x" (fun _ _ => 1) none).musicGain = 1
  ∧ musicPathOutput (handleMixing .conscious "x" (fun _ _ => 1) none) 0 0 = 1
  ∧ (0.3 : ℚ) *
      (((handleMixing .conscious "x" (fun _ _ => 1) none).musicBuffer.channels.getD 0
        []).getD 0 0) = 0.3
  ∧ musicPathOutput (handleMixing .conscious "x" (fun _ _ => 1) none) 0 0 ≠
      (0.3 : ℚ) *
        (((handleMixing .conscious "x" (fun _ _ => 1) none).musicBuffer.channels.getD 0
          []).getD 0 0) := by
  have hch := mix_music_channel .conscious "x" (fun _ _ => (1 : ℚ)) none 0 (by norm_num)
  have hs : ((handleMixing .conscious "x" (fun _ _ => (1 : ℚ))
      none).musicBuffer.channels.getD 0 []).getD 0 0 = 1 := by
    rw [hch, getD_range_map _ _ 2646000 0 (by norm_num)]
  have hg : (handleMixing .conscious "x" (fun _ _ => (1 : ℚ)) none).musicGain = 1 := rfl
  have hl : (handleMixing .conscious "x" (fun _ _ => (1 : ℚ)) none).musicLoop = true := rfl
  have hout : musicPathOutput (handleMixing .conscious "x" (fun _ _ => 1) none) 0 0 = 1 := by
    rw [musicPathOutput, hch, hg, hl, sourceSample_range_map _ _ _ (by norm_num), one_mul]
  refine ⟨hg, hout, by rw [hs]; norm_num, by rw [hout, hs]; norm_num⟩

/-- Claim C2 (amended): when the mix operation is invoked with no narration
buffer, the music gain node keeps the GainNode default value 1.0 (the
mode-specific music gain is assigned only when a narration buffer is
present), so the output is the looping music buffer at unity gain, not
scaled by the mode's music gain. -/
theorem c2_amended (mode : MixMode) (style : String) (musicData : ℕ → ℕ → ℚ) (c i : ℕ) :
    (handleMixing mode style musicData none).musicGain = 1
  ∧ musicPathOutput (handleMixing mode style musicData none) c i
      = sourceSample true
          ((handleMixing mode style musicData none).musicBuffer.channels.getD c []) i := by
  have hg : (handleMixing mode style musicData none).musicGain = 1 := rfl
  have hl : (handleMixing mode style musicData none).musicLoop = true := rfl
  refine ⟨hg, ?_⟩
  rw [musicPathOutput, hg, hl, one_mul]

/-- Claim C3, confirmed: for every mix with a narration buffer present, the
gain staging is exactly as claimed: conscious mode sets narration gain 0.5
with no narration filter and music gain 0.3; subliminal mode sets narration
gain 0.015 with an 8000 Hz low-pass on the narration and music gain 0.6;
silent mode sets narration gain 0.01 with a 200 Hz low-pass on the
narration and music gain 0.8. -/
theorem c3_gain_staging (style : String) (musicData : ℕ → ℕ → ℚ) (v : AudioBuffer) :
    ((handleMixing .conscious style musicData (some v)).musicGain = 0.3
      ∧ (handleMixing .conscious style musicData (some v)).narration
          = some { buffer := v, loop := true, lowpassHz := none, gain := 0.5 })
  ∧ ((handleMixing .subliminal style musicData (some v)).musicGain = 0.6
      ∧ (handleMixing .subliminal style musicData (some v)).narration
          = some { buffer := v, loop := true, lowpassHz := some 8000, gain := 0.015 })
  ∧ ((handleMixing .silent style musicData (some v)).musicGain = 0.8
      ∧ (handleMixing .silent style musicData (some v)).narration
          = some { buffer := v, loop := true, lowpassHz := some 200, gain := 0.01 }) :=
  ⟨⟨rfl, rfl⟩, ⟨rfl, rfl⟩, ⟨rfl, rfl⟩⟩

/-- Claim C5, counterexample.  The claim states that the keyword "witch"
(and "gameboy") selects the Witch (resp. Eightbit) profile; but the source
tests style.includes('Witch') and style.includes('Gameboy') case-sensitively,
so the all-lowercase descriptors fall through to DefaultNoise. -/
theorem c5_counterexample :
    resolveStyle "witch" = StyleProfile.DefaultNoise
  ∧ resolveStyle "witch" ≠ StyleProfile.Witch
  ∧ resolveStyle "gameboy" = StyleProfile.DefaultNoise := by
  refine ⟨by decide, by decide, by decide⟩

/-- Claim C5 (amended): style resolution tests the descriptor in the fixed
priority order Witch, Crystal, Ambient, Binaural, Eightbit against the
case-sensitive keyword pairs "女巫"/"Witch", "水晶"/"Crystal",
"Ambient"/"柔和", "Binaural"/"脑波", "8bit"/"Gameboy"; the first match
short-circuits and an unmatched descriptor falls to DefaultNoise; in
particular "女巫之梦" and "Witch Energy" both resolve to Witch and
"未知风格" resolves to DefaultNoise. -/
theorem c5_amended (s : String) :
    (witchMatch s = true → resolveStyle s = StyleProfile.Witch)
  ∧ (witchMatch s = false → crystalMatch s = true →
      resolveStyle s = StyleProfile.Crystal)
  ∧ (witchMatch s = false → crystalMatch s = false → ambientMatch s = true →
      resolveStyle s = StyleProfile.Ambient)
  ∧ (witchMatch s = false → crystalMatch s = false → ambientMatch s = false →
      binauralMatch s = true → resolveStyle s = StyleProfile.Binaural)
  ∧ (witchMatch s = false → crystalMatch s = false → ambientMatch s = false →
      binauralMatch s = false → eightbitMatch s = true →
      resolveStyle s = StyleProfile.Eightbit)
  ∧ (witchMatch s = false → crystalMatch s = false → ambientMatch s = false →
      binauralMatch s = false → eightbitMatch s = false →
      resolveStyle s = StyleProfile.DefaultNoise)
  ∧ resolveStyle "女巫之梦" = StyleProfile.Witch
  ∧ resolveStyle "Witch Energy" = StyleProfile.Witch
  ∧ resolveStyle "未知风格" = StyleProfile.DefaultNoise := by
  refine ⟨?_, ?_, ?_, ?_, ?_, ?_, by decide, by decide, by decide⟩
  all_goals intros
  all_goals simp_all [resolveStyle]

/-- Claim C5, witness: the amended resolution applied to a descriptor
matching both the Witch and the Crystal keyword sets (priority gives
Witch), and to a descriptor matching only the Crystal keywords. -/
theorem c5_witness :
    resolveStyle "Witch 水晶" = StyleProfile.Witch
  ∧ resolveStyle "水晶" = StyleProfile.Crystal :=
  ⟨(c5_amended "Witch 水晶").1 (by decide),
   (c5_amended "水晶").2.1 (by decide) (by decide)⟩

/-- Claim C6, counterexample.  The claim states that the rendered frame
count is round(sampleRate * durationSeconds); but the length argument of
the OfflineAudioContext is converted by WebIDL truncation toward zero, so
for the valid duration 1/8 s the render has 44100/8 truncated to 5512
frames where rounding gives 5513. -/
theorem c6_counterexample :
    synthesisFrameCount (1/8) = 5512
  ∧ round ((44100 : ℚ) * (1/8)) = 5513
  ∧ ((synthesisFrameCount (1/8) : ℤ) ≠ round ((44100 : ℚ) * (1/8)))
  ∧ (generateSynthesizedMusic "脑波 Binaural" (1/8) fun _ _ => 0).channels.map
      List.length = [5512, 5512] := by
  have h1 : synthesisFrameCount (1/8) = 5512 := by
    rw [synthesisFrameCount]
    exact toUnsignedLong_eq _ 5512 (by push_cast; norm_num) (by push_cast; norm_num)
      (by norm_num)
  have h2 : round ((44100 : ℚ) * (1/8)) = 5513 := by
    rw [round_eq]
    have he : (44100 : ℚ) * (1/8) + 1/2 = ((5513 : ℤ) : ℚ) := by push_cast; norm_num
    rw [he, Int.floor_intCast]
  refine ⟨h1, h2, by rw [h1, h2]; norm_num, ?_⟩
  rw [synthShape, h1]

/-- Claim C6 (amended): the synthesis render is fixed to 44100 Hz and, for
every valid duration whose frame product stays below 2^32, yields a stereo
buffer whose two channels each have floor(44100 * durationSeconds) frames
(WebIDL truncation of the length argument, not rounding); in particular a
5-second render of the descriptor "脑波 Binaural", which resolves to the
Binaural profile, yields 2 channels of exactly 220500 frames each. -/
theorem c6_amended (d : ℚ) (h1 : 0 < d) (h2 : 44100 * d < 2 ^ 32)
    (style : String) (musicData : ℕ → ℕ → ℚ) :
    (generateSynthesizedMusic style d musicData).channels.map List.length
      = [synthesisFrameCount d, synthesisFrameCount d]
  ∧ ((synthesisFrameCount d : ℤ)) = ⌊(44100 : ℚ) * d⌋
  ∧ (generateSynthesizedMusic "脑波 Binaural" (5 : ℚ) musicData).channels.map
      List.length = [220500, 220500]
  ∧ resolveStyle "脑波 Binaural" = StyleProfile.Binaural := by
  have hq : (0 : ℚ) ≤ 44100 * d := by positivity
  have hf0 : 0 ≤ ⌊(44100 : ℚ) * d⌋ := Int.floor_nonneg.mpr hq
  have hfl : ⌊(44100 : ℚ) * d⌋ < 2 ^ 32 := Int.floor_lt.mpr (by push_cast; linarith)
  have hmain : ((synthesisFrameCount d : ℤ)) = ⌊(44100 : ℚ) * d⌋ := by
    rw [synthesisFrameCount, toUnsignedLong, ratTrunc_of_nonneg _ hq,
      Int.emod_eq_of_lt hf0 hfl, Int.toNat_of_nonneg hf0]
  have h5 : synthesisFrameCount (5 : ℚ) = 220500 := by
    rw [synthesisFrameCount]
    exact toUnsignedLong_eq _ 220500 (by push_cast; norm_num) (by push_cast; norm_num)
      (by norm_num)
  refine ⟨synthShape style d musicData, hmain, ?_, by decide⟩
  rw [synthShape, h5]

/-- Claim C6, witness: the amended statement evaluated at the 5-second
Binaural scenario of the specification. -/
theorem c6_witness :
    (0 : ℚ) < 5
  ∧ (generateSynthesizedMusic "脑波 Binaural" (5 : ℚ) (fun _ _ => 0)).channels.map
      List.length = [220500, 220500] :=
  ⟨by norm_num,
   (c6_amended 5 (by norm_num) (by norm_num) "脑波 Binaural" (fun _ _ => 0)).2.2.1⟩

/-- Claim C7, confirmed: the mix renders exactly the 44100 * 60 frame
target (never shorter); both the music source and, when present, the
narration source are created with loop = true; the music path read at any
frame i of any channel is the music sample at i mod 2646000, i.e. the
buffer repeats from its start instead of being padded with silence; and in
general a looping source reads its (nonempty) data at the index wrapped by
the data length. -/
theorem c7_looping (mode : MixMode) (style : String) (musicData : ℕ → ℕ → ℚ)
    (voice : Option AudioBuffer) :
    (handleMixing mode style musicData voice).lengthFrames = 44100 * 60
  ∧ (handleMixing mode style musicData voice).musicLoop = true
  ∧ (∀ p, (handleMixing mode style musicData voice).narration = some p → p.loop = true)
  ∧ (∀ c, c < 2 → ∀ i,
      musicPathOutput (handleMixing mode style musicData voice) c i
        = (handleMixing mode style musicData voice).musicGain
          * musicData c (i % 2646000))
  ∧ (∀ (data : List ℚ) (i : ℕ), data ≠ [] →
      sourceSample true data i = data.getD (i % data.length) 0) := by
  have hl : (handleMixing mode style musicData voice).musicLoop = true := rfl
  refine ⟨rfl, hl, ?_, ?_, ?_⟩
  · rcases voice with _ | v
    · intro p hp
      simp [handleMixing] at hp
    · cases mode <;> exact fun p hp => (Option.some_inj.mp hp) ▸ rfl
  · intro c hc i
    rw [musicPathOutput, mix_music_channel mode style musicData voice c hc, hl,
      sourceSample_range_map _ _ _ (by norm_num)]
  · intro data i hne
    have hlen : data.length ≠ 0 := fun h => hne (List.length_eq_zero.mp h)
    simp only [sourceSample]
    rw [if_pos trivial, if_neg hlen]

/-- Claim C7, witness: the looping read applied one frame past the music
buffer length (the sample wraps to index 1 rather than being silence), and
the generic wrapped read on a concrete two-sample buffer. -/
theorem c7_witness :
    musicPathOutput (handleMixing .subliminal "Ambient" (fun _ i => (i : ℚ)) none) 0 2646001
      = (handleMixing .subliminal "Ambient" (fun _ i => (i : ℚ)) none).musicGain
        * ((2646001 % 2646000 : ℕ) : ℚ)
  ∧ sourceSample true [5, 7] 3 = [5, 7].getD (3 % [5, 7].length) 0 :=
  ⟨(c7_looping .subliminal "Ambient" (fun _ i => (i : ℚ)) none).2.2.2.1 0 (by norm_num)
      2646001,
   (c7_looping .subliminal "Ambient" (fun _ i => (i : ℚ)) none).2.2.2.2 [5, 7] 3
      (by simp)⟩

/-- Claim C10, confirmed: every invocation of the final mixing operation
renders a 2-channel output of exactly 60 * 44100 = 2646000 frames per
channel at 44100 Hz, regardless of the mode, the style and the narration
buffer; handleMixing exposes no target-duration parameter (DURATION is the
fixed local constant 60). -/
theorem c10_fixed_duration (mode : MixMode) (style : String) (musicData : ℕ → ℕ → ℚ)
    (voice : Option AudioBuffer) :
    (handleMixing mode style musicData voice).numberOfChannels = 2
  ∧ (handleMixing mode style musicData voice).lengthFrames = 60 * 44100
  ∧ (handleMixing mode style musicData voice).lengthFrames = 2646000
  ∧ (handleMixing mode style musicData voice).sampleRate = 44100 :=
  ⟨rfl, by norm_num [handleMixing], by norm_num [handleMixing], rfl⟩

end Lucid
